import Mathlib

/-!
Shallow embedding of `telegram2rss/channel.py` (class `TGChannel`, method
`fetch_to_python`).

The HTTP transport (`requests`) and the markup parser (`BeautifulSoup`)
are external collaborators.  A parsed page is modelled by `Doc`; the
results of every selector query `fetch_to_python` issues against one
message bubble are modelled by `Bubble`.  Python exceptions are modelled
by `Except PyErr`; an uncaught exception aborts the whole call.
-/

/-- Python exceptions that arise in `fetch_to_python`, plus the library's
own `FeedEnd` exception (raised when the feed was already exhausted). -/
inductive PyErr where
  | feedEnd
  | typeError
  | keyError
  | attributeError
  | indexError
  | valueError
  deriving DecidableEq, Repr

/-- A node returned by `select_one`, with one attribute to be read from it:
`none` models a missing tag (Python `None`), `some none` a tag that lacks
the attribute, and `some (some v)` the attribute value `v`. -/
abbrev AttrNode := Option (Option String)

/-- A node returned by `select_one`, with its text to be read: `none`
models a missing tag (Python `None`). -/
abbrev TextNode := Option String

/-- `select_one(...)["attr"]`: subscripting Python `None` raises
`TypeError`; a tag without the attribute raises `KeyError`. -/
def subscriptNode : AttrNode → Except PyErr String
  | none => .error .typeError
  | some none => .error .keyError
  | some (some v) => .ok v

/-- `select_one(...).text`: reading `.text` from Python `None` raises
`AttributeError`. -/
def textNode : TextNode → Except PyErr String
  | none => .error .attributeError
  | some t => .ok t

/-- `select(...)["attr"]` (`channel.py` line 182): `select` returns a
`ResultSet`, a Python `list` subclass, and subscripting a list with a
string raises `TypeError` unconditionally, whatever the list holds. -/
def resultSetSubscript (_nodes : List AttrNode) (_attr : String) : Except PyErr String :=
  .error .typeError

/-- `select(...).text` (`channel.py` line 183): a `ResultSet` has no
attribute `text`, so the read raises `AttributeError` unconditionally. -/
def resultSetTextRead (_nodes : List TextNode) : Except PyErr String :=
  .error .attributeError

/-- The single-quote character on which the style strings are split. -/
def quoteChar : Char := Char.ofNat 39

/-- Helper for `splitChar`: Python `str.split(sep)` for a one-character
separator, on the underlying character list, with the reversed current
piece as accumulator. -/
def splitCharAux (sep : Char) : List Char → List Char → List String
  | [], acc => [String.mk acc.reverse]
  | c :: rest, acc =>
    if c = sep then String.mk acc.reverse :: splitCharAux sep rest []
    else splitCharAux sep rest (c :: acc)

/-- Python `str.split(sep)` for a one-character separator: every
occurrence splits, empty pieces are kept, and the result is never the
empty list.  All the splits `channel.py` performs use one-character
separators. -/
def splitChar (sep : Char) (s : String) : List String :=
  splitCharAux sep s.data []

/-- Python `sep.join(parts)` for a one-character separator. -/
def joinChar (sep : Char) : List String → String
  | [] => ""
  | [p] => p
  | p :: q :: rest => p ++ String.singleton sep ++ joinChar sep (q :: rest)

/-- `value.split("'")[1]` (lines 158 and 166): Python list indexing raises
`IndexError` when the index is out of range. -/
def styleUrl (value : String) : Except PyErr String :=
  match (splitChar quoteChar value).get? 1 with
  | none => .error .indexError
  | some u => .ok u

/-- One photo anchor matched by `PHOTO.selector`: its `style` attribute,
if present. -/
structure PhotoNode where
  style : Option String
  deriving DecidableEq, Repr

/-- One video anchor matched by `VIDEO.selector`. -/
structure VideoNode where
  /-- `video["href"]`: `KeyError` when absent. -/
  href : Option String
  /-- `video.select_one(VIDEO_THUMB.selector)["style"]`. -/
  thumbStyle : AttrNode
  /-- `video.select_one(VIDEO_DURATION.selector).text`. -/
  durationText : TextNode
  deriving DecidableEq, Repr

/-- One voice node matched by `VOICE.selector`.  The code calls `select`
(not `select_one`) on it, so the fields are whole result lists. -/
structure VoiceNode where
  /-- `voice.select(VOICE_URL.selector)`, a `ResultSet`. -/
  urlNodes : List AttrNode
  /-- `voice.select(VOICE_DURATION.selector)`, a `ResultSet`. -/
  durationNodes : List TextNode
  deriving DecidableEq, Repr

/-- One document anchor matched by `DOCUMENT.selector`.  The title and
size queries use `select`: the full matched sets are kept. -/
structure DocumentNode where
  href : Option String
  titleTexts : List String
  sizeTexts : List String
  deriving DecidableEq, Repr

/-- One location anchor matched by `LOCATION.selector`. -/
structure LocationNode where
  /-- `location["href"]`: `KeyError` when absent. -/
  href : Option String
  deriving DecidableEq, Repr

/-- One poll option block matched by `POLL_OPTIONS.selector`. -/
structure PollOptionNode where
  percentText : TextNode
  valueText : TextNode
  deriving DecidableEq, Repr

/-- One poll matched by `POLL.selector`. -/
structure PollNode where
  questionText : TextNode
  typeText : TextNode
  options : List PollOptionNode
  deriving DecidableEq, Repr

/-- One node matched by `UNSUPPORTED_MEDIA.selector`. -/
structure UnsupportedMediaNode where
  /-- `media.select_one(UNSUPPORTED_MEDIA_URL.selector)["href"]`. -/
  urlNode : AttrNode
  deriving DecidableEq, Repr

/-- One message bubble (`.tgme_widget_message_bubble`), carrying the
results of every selector query `fetch_to_python` issues against it. -/
structure Bubble where
  /-- `bubble.select_one(MESSAGE_NUMBER.selector)["href"]`. -/
  numberNode : AttrNode
  /-- `bubble.select_one(MESSAGE_AUTHOR.selector).text`. -/
  authorNode : TextNode
  /-- `bubble.select_one(MESSAGE_DATE.selector)["datetime"]`. -/
  dateNode : AttrNode
  /-- `bubble.select_one(MESSAGE_VIEWS.selector).text`. -/
  viewsNode : TextNode
  /-- `bubble.select_one(MESSAGE_VOTERS.selector).text`. -/
  votersNode : TextNode
  /-- The texts of `bubble.select(TEXT.selector)`. -/
  texts : List String
  photos : List PhotoNode
  videos : List VideoNode
  voices : List VoiceNode
  documents : List DocumentNode
  locations : List LocationNode
  polls : List PollNode
  unsupportedMedias : List UnsupportedMediaNode
  deriving DecidableEq, Repr

/-- One entry of a decoded message's `contents` list, tagged by the
`type` key the code stores in each dictionary. -/
inductive Content where
  | text (content : String)
  | photo (url : String)
  | video (url thumbnail duration : String)
  | voice (url duration : String)
  | document (url : String) (title size : List String)
  | location (url latitude longitude : String)
  | poll (question ptype : String) (options : List (String × String))
  | unsupportedMedia (url : String)
  deriving DecidableEq, Repr

/-- One decoded message dictionary. -/
structure Message where
  number : String
  author : String
  date : String
  views : Option String
  voters : Option String
  contents : List Content
  deriving DecidableEq, Repr

/-- Text extraction (lines 150-152): one item per matched node. -/
def extractTexts (texts : List String) : List Content :=
  texts.map (fun t => Content.text t)

/-- Photo extraction for one node (lines 155-159): read the `style`
attribute (`KeyError` when absent) and take the slice between the first
pair of single quotes. -/
def extractPhoto (p : PhotoNode) : Except PyErr Content :=
  match p.style with
  | none => .error .keyError
  | some s =>
    match styleUrl s with
    | .error e => .error e
    | .ok url => .ok (Content.photo url)

/-- Video extraction for one node (lines 162-177). -/
def extractVideo (v : VideoNode) : Except PyErr Content :=
  match v.href with
  | none => .error .keyError
  | some url =>
    match subscriptNode v.thumbStyle with
    | .error e => .error e
    | .ok style =>
      match styleUrl style with
      | .error e => .error e
      | .ok thumb =>
        match textNode v.durationText with
        | .error e => .error e
        | .ok duration => .ok (Content.video url thumb duration)

/-- Voice extraction for one node (lines 180-187): the code subscripts
the whole `ResultSet` returned by `select` with the string `src`, so it
raises `TypeError` before the duration is even read. -/
def extractVoice (v : VoiceNode) : Except PyErr Content :=
  match resultSetSubscript v.urlNodes "src" with
  | .error e => .error e
  | .ok url =>
    match resultSetTextRead v.durationNodes with
    | .error e => .error e
    | .ok duration => .ok (Content.voice url duration)

/-- Document extraction for one node (lines 190-202): the title and size
result sets are stored whole. -/
def extractDocument (d : DocumentNode) : Except PyErr Content :=
  match d.href with
  | none => .error .keyError
  | some url => .ok (Content.document url d.titleTexts d.sizeTexts)

/-- Model of the collaborator `urllib.parse.urlparse(url).query`: the
part of the URL after the first question mark, the fragment (everything
from the first hash sign on) having been removed first. -/
def urlQuery (url : String) : String :=
  let noFrag := (splitChar '#' url).headD url
  match splitChar '?' noFrag with
  | _ :: v :: rest => joinChar '?' (v :: rest)
  | _ => ""

/-- Model of `urllib.parse` unquoting for the query values this code
meets: plus signs decode to spaces (percent escapes do not occur in the
map URLs handled here and are not modelled). -/
def unquotePlus (s : String) : String :=
  String.mk (s.data.map (fun c => if c = '+' then ' ' else c))

/-- Model of the collaborator `urllib.parse.parse_qs(query)[key]`: split
the query on ampersands, split each field at its first equals sign, skip
fields without an equals sign or with an empty value, and collect the
values of the given key in order.  An empty result models the dictionary
lookup raising `KeyError`. -/
def parseQsGet (query key : String) : List String :=
  (splitChar '&' query).filterMap (fun field =>
    match splitChar '=' field with
    | [] => none
    | [_] => none
    | k :: v :: rest =>
      let value := joinChar '=' (v :: rest)
      if unquotePlus k = key ∧ value ≠ "" then some (unquotePlus value) else none)

/-- The rewritten map URL (lines 213-216). -/
def osmUrl (latitude longitude zoom : String) : String :=
  "https://www.openstreetmap.org/" ++
    "?lat=" ++ latitude ++ "&lon=" ++ longitude ++ "&zoom=" ++ zoom ++ "&layers=M"

/-- Location extraction for one node (lines 205-224): read the link
(`KeyError` when the attribute is absent), parse the query keys `q` and
`z` (`KeyError` when absent), unpack the comma split of `q` into exactly
two parts (`ValueError` otherwise), and rewrite to the map URL. -/
def extractLocation (l : LocationNode) : Except PyErr Content :=
  match l.href with
  | none => .error .keyError
  | some url =>
    match parseQsGet (urlQuery url) "q" with
    | [] => .error .keyError
    | q :: _ =>
      match parseQsGet (urlQuery url) "z" with
      | [] => .error .keyError
      | zoom :: _ =>
        match splitChar ',' q with
        | [latitude, longitude] =>
          .ok (Content.location (osmUrl latitude longitude zoom) latitude longitude)
        | _ => .error .valueError

/-- A `for` loop accumulating one result per node in order, any uncaught
exception aborting the whole call. -/
def mapExtract (f : α → Except PyErr β) : List α → Except PyErr (List β)
  | [] => .ok []
  | x :: rest =>
    match f x with
    | .error e => .error e
    | .ok c =>
      match mapExtract f rest with
      | .error e => .error e
      | .ok cs => .ok (c :: cs)

/-- Poll option extraction for one block (lines 235-240). -/
def extractPollOption (o : PollOptionNode) : Except PyErr (String × String) :=
  match textNode o.percentText with
  | .error e => .error e
  | .ok percent =>
    match textNode o.valueText with
    | .error e => .error e
    | .ok value => .ok (percent, value)

/-- The inner loop over a poll's option blocks. -/
def extractPollOptions : List PollOptionNode → Except PyErr (List (String × String)) :=
  mapExtract extractPollOption

/-- Poll extraction for one node (lines 227-249). -/
def extractPoll (p : PollNode) : Except PyErr Content :=
  match textNode p.questionText with
  | .error e => .error e
  | .ok question =>
    match textNode p.typeText with
    | .error e => .error e
    | .ok ptype =>
      match extractPollOptions p.options with
      | .error e => .error e
      | .ok options => .ok (Content.poll question ptype options)

/-- Unsupported-media extraction (lines 257-268): a `KeyError` from the
`href` subscript is caught by the `try` block and the node skipped with
`continue`; a `TypeError` from subscripting a missing URL node is not
caught. -/
def extractUnsupportedMedias : List UnsupportedMediaNode → Except PyErr (List Content)
  | [] => .ok []
  | m :: rest =>
    match subscriptNode m.urlNode with
    | .error .keyError => extractUnsupportedMedias rest
    | .error e => .error e
    | .ok url =>
      match extractUnsupportedMedias rest with
      | .error e => .error e
      | .ok cs => .ok (Content.unsupportedMedia url :: cs)

/-- Message number (line 125): `select_one(...)["href"].split("/")[4]`. -/
def getNumber (b : Bubble) : Except PyErr String :=
  match subscriptNode b.numberNode with
  | .error e => .error e
  | .ok href =>
    match (splitChar '/' href).get? 4 with
    | none => .error .indexError
    | some n => .ok n

/-- Message author (line 126): `select_one(...).text`. -/
def getAuthor (b : Bubble) : Except PyErr String :=
  textNode b.authorNode

/-- Message date (line 127): `select_one(...)["datetime"]`. -/
def getDate (b : Bubble) : Except PyErr String :=
  subscriptNode b.dateNode

/-- Message views (lines 128-131): the `AttributeError` raised by a
missing node is caught and maps to `None`. -/
def getViews (b : Bubble) : Option String :=
  match textNode b.viewsNode with
  | .ok t => some t
  | .error _ => none

/-- Message voters (lines 132-135): same `try` pattern as the views. -/
def getVoters (b : Bubble) : Option String :=
  match textNode b.votersNode with
  | .ok t => some t
  | .error _ => none

/-- Decoding of one bubble (lines 121-271): metadata first, then the
content extractors in the fixed source order Text, Photo, Video, Voice,
Document, Location, Poll, UnsupportedMedia.  Any uncaught exception
aborts the whole `fetch_to_python` call. -/
def decodeBubble (b : Bubble) : Except PyErr Message :=
  match getNumber b with
  | .error e => .error e
  | .ok number =>
    match getAuthor b with
    | .error e => .error e
    | .ok author =>
      match getDate b with
      | .error e => .error e
      | .ok date =>
        match mapExtract extractPhoto b.photos with
        | .error e => .error e
        | .ok photoItems =>
          match mapExtract extractVideo b.videos with
          | .error e => .error e
          | .ok videoItems =>
            match mapExtract extractVoice b.voices with
            | .error e => .error e
            | .ok voiceItems =>
              match mapExtract extractDocument b.documents with
              | .error e => .error e
              | .ok documentItems =>
                match mapExtract extractLocation b.locations with
                | .error e => .error e
                | .ok locationItems =>
                  match mapExtract extractPoll b.polls with
                  | .error e => .error e
                  | .ok pollItems =>
                    match extractUnsupportedMedias b.unsupportedMedias with
                    | .error e => .error e
                    | .ok unsupportedItems =>
                      .ok { number := number, author := author, date := date,
                            views := getViews b, voters := getVoters b,
                            contents := extractTexts b.texts ++ photoItems ++
                              videoItems ++ voiceItems ++ documentItems ++
                              locationItems ++ pollItems ++ unsupportedItems }

/-- The loop over the collected bubbles (lines 121-271): decode each in
order, any uncaught exception aborting the whole call. -/
def decodeAll : List Bubble → Except PyErr (List Message) :=
  mapExtract decodeBubble

/-- One fetched preview document, as seen through the two selector
queries the page loop issues. -/
structure Doc where
  /-- `soup.select_one(".tme_messages_more")["data-before"]`: `none`
  models a missing pagination control (the subscript raises `TypeError`),
  `some none` a control without the `data-before` attribute (`KeyError`),
  and `some (some c)` the next cursor token `c`. -/
  messagesMore : AttrNode
  /-- `soup.select(".tgme_widget_message_bubble")`, in raw document
  order. -/
  bubbles : List Bubble
  deriving DecidableEq, Repr

/-- The session state of `TGChannel`: `position` is `None` at the start,
the cursor between calls, and the sentinel `"0"` once exhausted. -/
structure TGChannel where
  channel_id : String
  position : Option String
  deriving DecidableEq, Repr

/-- The page loop of `fetch_to_python` (lines 103-117).  The transport is
modelled as the sequence of documents successive requests return; the
`Nat` argument counts the requests already made.  Returns the collected
bubbles (each page reversed), the final cursor, and the total request
count.  On `TypeError` (missing control) the cursor becomes `"0"` but
the loop continues; on `KeyError` the loop breaks before collecting that
page's bubbles. -/
def fetchLoop (transport : Nat → Doc) :
    Nat → Option String → Nat → List Bubble × Option String × Nat
  | 0, position, requests => ([], position, requests)
  | n + 1, _position, requests =>
    let doc := transport requests
    match doc.messagesMore with
    | some none => ([], some "0", requests + 1)
    | some (some c) =>
      let r := fetchLoop transport n (some c) (requests + 1)
      (doc.bubbles.reverse ++ r.1, r.2.1, r.2.2)
    | none =>
      let r := fetchLoop transport n (some "0") (requests + 1)
      (doc.bubbles.reverse ++ r.1, r.2.1, r.2.2)

deriving instance DecidableEq for Except

/-- The outcome of one `fetch_to_python` call: the session state after
the call, the number of transport requests made, and either the returned
message list or the uncaught exception. -/
structure FetchOut where
  channel : TGChannel
  requests : Nat
  result : Except PyErr (List Message)
  deriving DecidableEq, Repr

/-- `fetch_to_python` (lines 87-272): raise `FeedEnd` when the cursor is
the sentinel `"0"`, otherwise run the page loop and then decode every
collected bubble. -/
def fetch_to_python (transport : Nat → Doc) (ch : TGChannel)
    (pages_to_fetch : Nat) : FetchOut :=
  if ch.position = some "0" then
    { channel := ch, requests := 0, result := .error .feedEnd }
  else
    let r := fetchLoop transport pages_to_fetch ch.position 0
    { channel := { ch with position := r.2.1 }, requests := r.2.2,
      result := decodeAll r.1 }

/-! Concrete fixtures used by witnesses and counterexamples. -/

/-- A bubble with all required metadata present, message number `n`, and
no content nodes. -/
def sampleBubble (n : String) : Bubble :=
  { numberNode := some (some ("https://t.me/chan/" ++ n))
    authorNode := some "chan"
    dateNode := some (some "2022-01-01T00:00:00+00:00")
    viewsNode := none
    votersNode := none
    texts := []
    photos := []
    videos := []
    voices := []
    documents := []
    locations := []
    polls := []
    unsupportedMedias := [] }

/-- The message `sampleBubble n` decodes to. -/
def sampleMessage (n : String) : Message :=
  { number := n, author := "chan", date := "2022-01-01T00:00:00+00:00",
    views := none, voters := none, contents := [] }

/-- A `background-image` style attribute value wrapping `url` in single
quotes, as the Telegram preview markup does. -/
def styleValue (url : String) : String :=
  "background-image:url(" ++ String.singleton quoteChar ++ url ++
    String.singleton quoteChar ++ ")"

/-! Shared lemmas about the extraction loops and the page loop. -/

theorem mapExtract_append_ok (f : α → Except PyErr β) (xs ys : List α)
    (as bs : List β) (hxs : mapExtract f xs = .ok as)
    (hys : mapExtract f ys = .ok bs) :
    mapExtract f (xs ++ ys) = .ok (as ++ bs) := by
  induction xs generalizing as with
  | nil =>
    simp [mapExtract] at hxs
    simp [hxs, hys]
  | cons x rest ih =>
    cases hf : f x with
    | error e => simp [mapExtract, hf] at hxs
    | ok c =>
      cases hr : mapExtract f rest with
      | error e => simp [mapExtract, hf, hr] at hxs
      | ok cs =>
        simp [mapExtract, hf, hr] at hxs
        simp [mapExtract, hf, ih cs hr, ← hxs]

theorem mapExtract_append_error (f : α → Except PyErr β) (xs : List α)
    (x : α) (ys : List α) (as : List β) (e : PyErr)
    (hxs : mapExtract f xs = .ok as) (hx : f x = .error e) :
    mapExtract f (xs ++ x :: ys) = .error e := by
  induction xs generalizing as with
  | nil => simp [mapExtract, hx]
  | cons z rest ih =>
    cases hf : f z with
    | error d => simp [mapExtract, hf] at hxs
    | ok c =>
      cases hr : mapExtract f rest with
      | error d => simp [mapExtract, hf, hr] at hxs
      | ok cs => simp [mapExtract, hf, ih cs hr]

theorem mapExtract_reverse_ok (f : α → Except PyErr β) (xs : List α)
    (as : List β) (h : mapExtract f xs = .ok as) :
    mapExtract f xs.reverse = .ok as.reverse := by
  induction xs generalizing as with
  | nil =>
    simp [mapExtract] at h
    simp [mapExtract, h]
  | cons x rest ih =>
    cases hf : f x with
    | error e => simp [mapExtract, hf] at h
    | ok c =>
      cases hr : mapExtract f rest with
      | error e => simp [mapExtract, hf, hr] at h
      | ok cs =>
        simp [mapExtract, hf, hr] at h
        have hone : mapExtract f [x] = .ok [c] := by simp [mapExtract, hf]
        have := mapExtract_append_ok f rest.reverse [x] cs.reverse [c] (ih cs hr) hone
        simp [← h, this]

theorem decodeAll_append_error (bs1 : List Bubble) (b : Bubble)
    (bs2 : List Bubble) (ms : List Message) (e : PyErr)
    (h1 : decodeAll bs1 = .ok ms) (h2 : decodeBubble b = .error e) :
    decodeAll (bs1 ++ b :: bs2) = .error e :=
  mapExtract_append_error decodeBubble bs1 b bs2 ms e h1 h2

/-- When every requested page carries a usable cursor, the page loop
collects every page's bubbles reversed, in fetch order, and makes one
request per page. -/
theorem fetchLoop_all_cursor (transport : Nat → Doc) :
    ∀ (n requests : Nat) (position : Option String),
      (∀ k, k < n → ∃ c, (transport (requests + k)).messagesMore = some (some c)) →
      (fetchLoop transport n position requests).1 =
        ((List.range n).map
          (fun k => (transport (requests + k)).bubbles.reverse)).flatten ∧
      (fetchLoop transport n position requests).2.2 = requests + n := by
  intro n
  induction n with
  | zero => intro requests position _; simp [fetchLoop]
  | succ n ih =>
    intro requests position h
    obtain ⟨c, hc⟩ := h 0 (Nat.succ_pos n)
    rw [Nat.add_zero] at hc
    have hshift : ∀ k, k < n →
        ∃ c, (transport (requests + 1 + k)).messagesMore = some (some c) := by
      intro k hk
      have := h (k + 1) (by omega)
      have harith : requests + (k + 1) = requests + 1 + k := by omega
      rw [harith] at this
      exact this
    have hihn := ih (requests + 1) (some c) hshift
    simp only [fetchLoop, hc]
    constructor
    · rw [hihn.1, List.range_succ_eq_map]
      simp only [List.map_cons, List.map_map, List.flatten_cons]
      rw [Nat.add_zero]
      refine congrArg₂ List.append rfl ?_
      refine congrArg List.flatten (List.map_congr_left ?_)
      intro k _
      have harith2 : requests + (k + 1) = requests + 1 + k := by omega
      simp [Function.comp, Nat.succ_eq_add_one, harith2]
    · rw [hihn.2]
      omega

/-- When every chunk of bubbles decodes, the concatenation decodes to the
concatenated messages. -/
theorem decodeAll_join_ok (f : Nat → List Bubble) (g : Nat → List Message) :
    ∀ n, (∀ k, k < n → decodeAll (f k) = .ok (g k)) →
      decodeAll ((List.range n).map f).flatten = .ok ((List.range n).map g).flatten := by
  intro n
  induction n with
  | zero => intro _; simp [decodeAll, mapExtract]
  | succ n ih =>
    intro h
    rw [List.range_succ]
    simp only [List.map_append, List.map_cons, List.map_nil,
      List.flatten_append, List.flatten_cons, List.flatten_nil]
    have hlast : decodeAll (f n ++ []) = .ok (g n) := by
      simpa using h n (by omega)
    simpa using mapExtract_append_ok decodeBubble _ _ _ _
      (ih (fun k hk => h k (by omega))) hlast

/-! Claim theorems. -/

/-- C1: for every session whose cursor equals the end sentinel "0", every
subsequent `fetch_to_python` call fails with `FeedEnd` immediately,
fetching no pages and returning no messages, the state unchanged. -/
theorem fetch_feedEnd_when_exhausted (transport : Nat → Doc) (ch : TGChannel)
    (pages_to_fetch : Nat) (h : ch.position = some "0") :
    fetch_to_python transport ch pages_to_fetch =
      { channel := ch, requests := 0, result := .error .feedEnd } := by
  simp [fetch_to_python, h]

theorem fetch_feedEnd_when_exhausted_witness :
    fetch_to_python (fun _ => { messagesMore := none, bubbles := [sampleBubble "1"] })
      { channel_id := "chan", position := some "0" } 2 =
      { channel := { channel_id := "chan", position := some "0" },
        requests := 0, result := .error .feedEnd } :=
  fetch_feedEnd_when_exhausted _ _ 2 rfl

/-- C10: calling `fetch_to_python` with `pages_to_fetch = 0` on a
non-exhausted session returns the empty list, makes no transport request,
and leaves the cursor unchanged. -/
theorem fetch_zero_pages_noop (transport : Nat → Doc) (ch : TGChannel)
    (h : ch.position ≠ some "0") :
    fetch_to_python transport ch 0 =
      { channel := ch, requests := 0, result := .ok [] } := by
  simp [fetch_to_python, h, fetchLoop, decodeAll, mapExtract]

theorem fetch_zero_pages_noop_witness :
    fetch_to_python (fun _ => { messagesMore := none, bubbles := [sampleBubble "1"] })
      { channel_id := "chan", position := some "7" } 0 =
      { channel := { channel_id := "chan", position := some "7" },
        requests := 0, result := .ok [] } :=
  fetch_zero_pages_noop _ _ (by decide)

/-- The transport of the C2 counterexample: page 1 carries cursor "20",
pages 2 and 3 lack the pagination control entirely. -/
def c2Transport : Nat → Doc := fun k =>
  if k = 0 then { messagesMore := some (some "20"), bubbles := [sampleBubble "1"] }
  else if k = 1 then { messagesMore := none, bubbles := [sampleBubble "2"] }
  else { messagesMore := none, bubbles := [sampleBubble "3"] }

/-- C2 counterexample: requesting 3 pages where page 2's pagination
control is missing yields the messages of pages 1, 2 AND 3 — the loop
does not stop at page 2 — and three transport requests are made. -/
theorem c2_counterexample :
    (fetch_to_python c2Transport { channel_id := "chan", position := none } 3).result =
      .ok [sampleMessage "1", sampleMessage "2", sampleMessage "3"] ∧
    (fetch_to_python c2Transport { channel_id := "chan", position := none } 3).requests = 3 := by
  decide

/-- C2 (amended): the two exhaustion outcomes differ.  When a page's
pagination control is absent (`TypeError`), the cursor is set to "0" but
the page loop continues: that page's messages are included and the
remaining requested pages are still fetched in the same call.  When the
control is present but carries no cursor token (`KeyError`), the loop
stops at that page and that page's messages are excluded.  In both
scenarios below the final cursor is "0", so any further fetch call on
the session fails with `FeedEnd`. -/
theorem fetch_exhaustion_branches :
    (∀ (transport : Nat → Doc) (ch : TGChannel) (c : String),
      ch.position ≠ some "0" →
      (transport 0).messagesMore = some (some c) →
      (transport 1).messagesMore = none →
      (transport 2).messagesMore = none →
      fetch_to_python transport ch 3 =
        { channel := { ch with position := some "0" }, requests := 3,
          result := decodeAll ((transport 0).bubbles.reverse ++
            ((transport 1).bubbles.reverse ++
              ((transport 2).bubbles.reverse ++ []))) } ∧
      ∀ (transport2 : Nat → Doc) (m : Nat),
        (fetch_to_python transport2 (fetch_to_python transport ch 3).channel m).result =
          .error .feedEnd) ∧
    (∀ (transport : Nat → Doc) (ch : TGChannel) (c : String),
      ch.position ≠ some "0" →
      (transport 0).messagesMore = some (some c) →
      (transport 1).messagesMore = some none →
      fetch_to_python transport ch 3 =
        { channel := { ch with position := some "0" }, requests := 2,
          result := decodeAll ((transport 0).bubbles.reverse ++ []) } ∧
      ∀ (transport2 : Nat → Doc) (m : Nat),
        (fetch_to_python transport2 (fetch_to_python transport ch 3).channel m).result =
          .error .feedEnd) := by
  constructor
  · intro transport ch c hpos h0 h1 h2
    have hmain : fetch_to_python transport ch 3 =
        { channel := { ch with position := some "0" }, requests := 3,
          result := decodeAll ((transport 0).bubbles.reverse ++
            ((transport 1).bubbles.reverse ++
              ((transport 2).bubbles.reverse ++ []))) } := by
      simp [fetch_to_python, hpos, fetchLoop, h0, h1, h2]
    refine ⟨hmain, ?_⟩
    intro transport2 m
    rw [hmain]
    simp [fetch_to_python]
  · intro transport ch c hpos h0 h1
    have hmain : fetch_to_python transport ch 3 =
        { channel := { ch with position := some "0" }, requests := 2,
          result := decodeAll ((transport 0).bubbles.reverse ++ []) } := by
      simp [fetch_to_python, hpos, fetchLoop, h0, h1]
    refine ⟨hmain, ?_⟩
    intro transport2 m
    rw [hmain]
    simp [fetch_to_python]

/-- The transport of the `KeyError` scenario: page 2's control lacks the
`data-before` attribute. -/
def c2KeyErrorTransport : Nat → Doc := fun k =>
  if k = 0 then { messagesMore := some (some "20"), bubbles := [sampleBubble "1"] }
  else { messagesMore := some none, bubbles := [sampleBubble "2"] }

theorem fetch_exhaustion_branches_witness :
    (fetch_to_python c2Transport { channel_id := "chan", position := none } 3 =
      { channel := { channel_id := "chan", position := some "0" }, requests := 3,
        result := decodeAll ((c2Transport 0).bubbles.reverse ++
          ((c2Transport 1).bubbles.reverse ++
            ((c2Transport 2).bubbles.reverse ++ []))) } ∧
      ∀ (transport2 : Nat → Doc) (m : Nat),
        (fetch_to_python transport2
          (fetch_to_python c2Transport { channel_id := "chan", position := none } 3).channel
          m).result = .error .feedEnd) ∧
    (fetch_to_python c2KeyErrorTransport { channel_id := "chan", position := none } 3 =
      { channel := { channel_id := "chan", position := some "0" }, requests := 2,
        result := decodeAll ((c2KeyErrorTransport 0).bubbles.reverse ++ []) } ∧
      ∀ (transport2 : Nat → Doc) (m : Nat),
        (fetch_to_python transport2
          (fetch_to_python c2KeyErrorTransport { channel_id := "chan", position := none } 3).channel
          m).result = .error .feedEnd) :=
  ⟨fetch_exhaustion_branches.1 c2Transport _ "20" (by decide) rfl rfl rfl,
   fetch_exhaustion_branches.2 c2KeyErrorTransport _ "20" (by decide) rfl rfl⟩

/-- The transport of the C3 counterexample: one page whose second bubble
lacks the author node. -/
def c3Transport : Nat → Doc := fun _ =>
  { messagesMore := some (some "20"),
    bubbles := [sampleBubble "1", { sampleBubble "2" with authorNode := none }] }

/-- C3 counterexample: a page containing a valid message and a message
lacking its author does not return the valid message — the whole call
aborts with an uncaught `AttributeError`. -/
theorem c3_counterexample :
    (fetch_to_python c3Transport { channel_id := "chan", position := none } 1).result =
      .error .attributeError := by
  decide

/-- C3 (amended): a message fragment lacking a required identity field
aborts the whole call rather than being dropped alone: decoding raises
the uncaught exception (`TypeError` for the number node, `AttributeError`
for the author node, `TypeError` for the date node), the bubble loop
stops there, and `fetch_to_python` returns that error with no messages at
all. -/
theorem decode_missing_metadata_aborts :
    (∀ b : Bubble, b.numberNode = none → decodeBubble b = .error .typeError) ∧
    (∀ (b : Bubble) (x : String), getNumber b = .ok x → b.authorNode = none →
      decodeBubble b = .error .attributeError) ∧
    (∀ (b : Bubble) (x y : String), getNumber b = .ok x → getAuthor b = .ok y →
      b.dateNode = none → decodeBubble b = .error .typeError) ∧
    (∀ (bs1 : List Bubble) (b : Bubble) (bs2 : List Bubble)
      (ms : List Message) (e : PyErr),
      decodeAll bs1 = .ok ms → decodeBubble b = .error e →
      decodeAll (bs1 ++ b :: bs2) = .error e) ∧
    (∀ (transport : Nat → Doc) (ch : TGChannel) (n : Nat) (e : PyErr),
      ch.position ≠ some "0" →
      decodeAll (fetchLoop transport n ch.position 0).1 = .error e →
      (fetch_to_python transport ch n).result = .error e) := by
  refine ⟨?_, ?_, ?_, ?_, ?_⟩
  · intro b h
    simp [decodeBubble, getNumber, subscriptNode, h]
  · intro b x hn h
    simp [decodeBubble, hn, getAuthor, textNode, h]
  · intro b x y hn ha h
    simp [decodeBubble, hn, ha, getDate, subscriptNode, h]
  · exact decodeAll_append_error
  · intro transport ch n e hpos hdec
    simp [fetch_to_python, hpos, hdec]

theorem decode_missing_metadata_aborts_witness :
    decodeBubble { sampleBubble "1" with numberNode := none } = .error .typeError ∧
    decodeBubble { sampleBubble "1" with authorNode := none } = .error .attributeError ∧
    decodeBubble { sampleBubble "1" with dateNode := none } = .error .typeError ∧
    decodeAll [sampleBubble "1", { sampleBubble "2" with authorNode := none }] =
      .error .attributeError :=
  ⟨decode_missing_metadata_aborts.1 _ rfl,
   decode_missing_metadata_aborts.2.1 _ "1" (by decide) rfl,
   decode_missing_metadata_aborts.2.2.1 _ "1" "chan" (by decide) (by decide) rfl,
   decode_missing_metadata_aborts.2.2.2.1 [sampleBubble "1"] _ [] [sampleMessage "1"] _
     (by decide) (decode_missing_metadata_aborts.2.1 _ "2" (by decide) rfl)⟩

/-- C4: when every requested page carries a usable cursor and every
page's bubbles decode, the returned list is each page's messages reversed
from raw document order, pages concatenated in fetch order. -/
theorem fetch_message_order (transport : Nat → Doc) (ch : TGChannel) (n : Nat)
    (ms : Nat → List Message)
    (hstart : ch.position ≠ some "0")
    (hcursor : ∀ k, k < n → ∃ c, (transport k).messagesMore = some (some c))
    (hdecode : ∀ k, k < n → decodeAll (transport k).bubbles = .ok (ms k)) :
    (fetch_to_python transport ch n).result =
      .ok ((List.range n).map (fun k => (ms k).reverse)).flatten := by
  have hcursor0 : ∀ k, k < n →
      ∃ c, (transport (0 + k)).messagesMore = some (some c) := by
    intro k hk
    simpa using hcursor k hk
  have hb := fetchLoop_all_cursor transport n 0 ch.position hcursor0
  simp only [fetch_to_python, hstart, if_neg, ite_false]
  rw [hb.1]
  have hj := decodeAll_join_ok (fun k => (transport (0 + k)).bubbles.reverse)
    (fun k => (ms k).reverse) n
    (fun k hk => mapExtract_reverse_ok decodeBubble _ _ (by simpa using hdecode k hk))
  simpa using hj

/-- The transport of the C4 witness: two pages, each with two bubbles in
reverse-chronological document order. -/
def orderTransport : Nat → Doc := fun k =>
  if k = 0 then
    { messagesMore := some (some "20"),
      bubbles := [sampleBubble "4", sampleBubble "3"] }
  else
    { messagesMore := some (some "10"),
      bubbles := [sampleBubble "2", sampleBubble "1"] }

theorem fetch_message_order_witness :
    (fetch_to_python orderTransport { channel_id := "chan", position := none } 2).result =
      .ok [sampleMessage "3", sampleMessage "4", sampleMessage "1", sampleMessage "2"] := by
  have h := fetch_message_order orderTransport
    { channel_id := "chan", position := none } 2
    (fun k => if k = 0 then [sampleMessage "4", sampleMessage "3"]
      else [sampleMessage "2", sampleMessage "1"])
    (by decide)
    (by
      intro k hk
      interval_cases k
      · exact ⟨"20", by decide⟩
      · exact ⟨"10", by decide⟩)
    (by
      intro k hk
      interval_cases k
      · decide
      · decide)
  rw [h]
  decide

/-- C5: a decoded message's contents list is the concatenation of the
extractor outputs in the fixed order Text, Photo, Video, Voice, Document,
Location, Poll, UnsupportedMedia. -/
theorem decode_contents_order (b : Bubble) (nu au da : String)
    (ph vi vo dc lo po un : List Content)
    (hn : getNumber b = .ok nu) (ha : getAuthor b = .ok au)
    (hd : getDate b = .ok da)
    (hph : mapExtract extractPhoto b.photos = .ok ph)
    (hvi : mapExtract extractVideo b.videos = .ok vi)
    (hvo : mapExtract extractVoice b.voices = .ok vo)
    (hdc : mapExtract extractDocument b.documents = .ok dc)
    (hlo : mapExtract extractLocation b.locations = .ok lo)
    (hpo : mapExtract extractPoll b.polls = .ok po)
    (hun : extractUnsupportedMedias b.unsupportedMedias = .ok un) :
    decodeBubble b = .ok
      { number := nu, author := au, date := da,
        views := getViews b, voters := getVoters b,
        contents := extractTexts b.texts ++ ph ++ vi ++ vo ++ dc ++ lo ++
          po ++ un } := by
  simp [decodeBubble, hn, ha, hd, hph, hvi, hvo, hdc, hlo, hpo, hun]

/-- A bubble holding one text, one photo, one location and one
unsupported-media node, to exhibit the fixed content order. -/
def orderBubble : Bubble :=
  { sampleBubble "9" with
    texts := ["hello"]
    photos := [{ style := some (styleValue "https://x/p.jpg") }]
    locations := [{ href := some "https://maps.google.com/maps?q=40.1,-73.9&z=15" }]
    unsupportedMedias := [{ urlNode := some (some "https://t.me/chan/9") }] }

theorem decode_contents_order_witness :
    decodeBubble orderBubble = .ok
      { number := "9", author := "chan", date := "2022-01-01T00:00:00+00:00",
        views := none, voters := none,
        contents := [Content.text "hello", Content.photo "https://x/p.jpg",
          Content.location
            "https://www.openstreetmap.org/?lat=40.1&lon=-73.9&zoom=15&layers=M"
            "40.1" "-73.9",
          Content.unsupportedMedia "https://t.me/chan/9"] } := by
  have h := decode_contents_order orderBubble "9" "chan"
    "2022-01-01T00:00:00+00:00"
    [Content.photo "https://x/p.jpg"] [] [] []
    [Content.location
      "https://www.openstreetmap.org/?lat=40.1&lon=-73.9&zoom=15&layers=M"
      "40.1" "-73.9"]
    [] [Content.unsupportedMedia "https://t.me/chan/9"]
    (by decide) (by decide) (by decide) (by decide) (by decide) (by decide)
    (by decide) (by decide) (by decide) (by decide)
  rw [h]
  decide

/-- C6: a location link whose query carries `q` (lat,long) and `z` (zoom)
is rewritten to the fixed map-service URL template, with latitude and
longitude taken from splitting `q` on the comma and zoom from `z`. -/
theorem location_rewrite (l : LocationNode) (url q zoom lat lon : String)
    (qrest zrest : List String)
    (hh : l.href = some url)
    (hq : parseQsGet (urlQuery url) "q" = q :: qrest)
    (hz : parseQsGet (urlQuery url) "z" = zoom :: zrest)
    (hsplit : splitChar ',' q = [lat, lon]) :
    extractLocation l = .ok (Content.location
      ("https://www.openstreetmap.org/" ++ "?lat=" ++ lat ++ "&lon=" ++ lon ++
        "&zoom=" ++ zoom ++ "&layers=M") lat lon) := by
  simp [extractLocation, hh, hq, hz, hsplit, osmUrl]

theorem location_rewrite_witness :
    extractLocation { href := some "https://maps.google.com/maps?q=40.1,-73.9&z=15" } =
      .ok (Content.location
        "https://www.openstreetmap.org/?lat=40.1&lon=-73.9&zoom=15&layers=M"
        "40.1" "-73.9") := by
  have h := location_rewrite
    { href := some "https://maps.google.com/maps?q=40.1,-73.9&z=15" }
    "https://maps.google.com/maps?q=40.1,-73.9&z=15" "40.1,-73.9" "15"
    "40.1" "-73.9" [] []
    rfl (by decide) (by decide) (by decide)
  rw [h]
  decide

/-- A bubble whose first photo node lacks the style attribute while its
second one is well formed. -/
def badPhotoBubble : Bubble :=
  { sampleBubble "1" with
    photos := [{ style := none },
      { style := some (styleValue "https://x/y.jpg") }] }

/-- C7 counterexample: a photo node without the style attribute is not
skipped for that node only: decoding the message aborts with `KeyError`,
the second (well-formed) photo node is never extracted, and the message
is not retained. -/
theorem c7_counterexample :
    decodeBubble badPhotoBubble = .error .keyError ∧
    mapExtract extractPhoto badPhotoBubble.photos ≠
      .ok [Content.photo "https://x/y.jpg"] := by
  decide

/-- C7 (amended): a photo node lacking the style attribute raises an
uncaught `KeyError`: photo extraction aborts at that node, later photo
nodes are not processed, and the whole message decode fails, so the
message is not retained. -/
theorem photo_missing_style_aborts (b : Bubble) (nu au da : String)
    (ps1 : List PhotoNode) (p : PhotoNode) (ps2 : List PhotoNode)
    (cs : List Content)
    (hn : getNumber b = .ok nu) (ha : getAuthor b = .ok au)
    (hd : getDate b = .ok da)
    (hb : b.photos = ps1 ++ p :: ps2) (hp : p.style = none)
    (hps : mapExtract extractPhoto ps1 = .ok cs) :
    mapExtract extractPhoto b.photos = .error .keyError ∧
    decodeBubble b = .error .keyError := by
  have hphp : extractPhoto p = .error .keyError := by simp [extractPhoto, hp]
  have h1 : mapExtract extractPhoto b.photos = .error .keyError := by
    rw [hb]
    exact mapExtract_append_error extractPhoto ps1 p ps2 cs .keyError hps hphp
  exact ⟨h1, by simp [decodeBubble, hn, ha, hd, h1]⟩

theorem photo_missing_style_aborts_witness :
    mapExtract extractPhoto badPhotoBubble.photos = .error .keyError ∧
    decodeBubble badPhotoBubble = .error .keyError :=
  photo_missing_style_aborts badPhotoBubble "1" "chan"
    "2022-01-01T00:00:00+00:00"
    [] { style := none } [{ style := some (styleValue "https://x/y.jpg") }] []
    (by decide) (by decide) (by decide) rfl rfl (by decide)

/-- A bubble with one voice node carrying a valid audio source and
duration. -/
def voiceBubble : Bubble :=
  { sampleBubble "5" with
    voices := [{ urlNodes := [some (some "https://x/a.ogg")],
                 durationNodes := [some "0:30"] }] }

/-- C8: the voice extractor can never produce an item: the code calls
`select` where `select_one` is needed, and subscripting the returned
`ResultSet` (a Python list) with the string "src" raises `TypeError` for
every voice node — even one carrying a valid audio source and duration
text, as in `voiceBubble`. -/
theorem voice_extraction_always_fails (v : VoiceNode) (vs : List VoiceNode) :
    extractVoice v = .error .typeError ∧
    mapExtract extractVoice (v :: vs) = .error .typeError ∧
    decodeBubble voiceBubble = .error .typeError := by
  refine ⟨?_, ?_, by decide⟩
  · simp [extractVoice, resultSetSubscript]
  · simp [mapExtract, extractVoice, resultSetSubscript]

/-- C9: an unsupported-media node whose URL tag lacks the link attribute
produces zero items and raises no error: the caught `KeyError` skips
exactly that node and extraction continues with the remaining nodes. -/
theorem unsupported_media_missing_href_skipped (ns1 : List UnsupportedMediaNode)
    (m : UnsupportedMediaNode) (ns2 : List UnsupportedMediaNode)
    (h : m.urlNode = some none) :
    extractUnsupportedMedias (ns1 ++ m :: ns2) =
      extractUnsupportedMedias (ns1 ++ ns2) := by
  induction ns1 with
  | nil => simp [extractUnsupportedMedias, subscriptNode, h]
  | cons x rest ih =>
    cases hx : subscriptNode x.urlNode with
    | error e => cases e <;> simp [extractUnsupportedMedias, hx, ih]
    | ok url => simp [extractUnsupportedMedias, hx, ih]

theorem unsupported_media_missing_href_skipped_witness :
    extractUnsupportedMedias
      [{ urlNode := some (some "https://t.me/chan/1") }, { urlNode := some none }] =
      extractUnsupportedMedias [{ urlNode := some (some "https://t.me/chan/1") }] :=
  unsupported_media_missing_href_skipped
    [{ urlNode := some (some "https://t.me/chan/1") }] { urlNode := some none } [] rfl
